import Mathlib

/-!
# Verification of the medcarbon leaderboard aggregation engine

A shallow embedding of the pure aggregation core of `src/app.py`:
the unit normalizer, the per-user emission aggregator
(`compute_totals_for_user`), the dataset leaderboard builder
(`build_leaderboards_from_data`) and the logged-emissions leaderboard
builder (`build_leaderboards_from_emissions`), together with a raw-JSON
level model of the emissions loader used to analyse error behaviour.

Python floats are modelled as rationals (`ℚ`); the arithmetic performed
by the program (sums, differences, one division, `round(_, 1)`,
`max`/`min`) is exact on the inputs considered here, so `ℚ` is faithful.
Python `round` rounds half to even, which is modelled explicitly.
-/

/-- Python's `round` to an integer: round half to even (banker's rounding). -/
def roundHalfEven (q : ℚ) : ℤ :=
  if q - ⌊q⌋ < 1/2 then ⌊q⌋
  else if 1/2 < q - ⌊q⌋ then ⌊q⌋ + 1
  else if ⌊q⌋ % 2 = 0 then ⌊q⌋ else ⌊q⌋ + 1

/-- Python's `round(x, 1)`: round to one decimal place, half to even. -/
def pyRound1 (q : ℚ) : ℚ :=
  (roundHalfEven (q * 10) : ℚ) / 10

/-- The subsidy formula as the spec words it:
`clamp(round(reduction_pct, 1), 0, 40)`. -/
def clampRound (q : ℚ) : ℚ :=
  max 0 (min 40 (pyRound1 q))

/-- Python `str.lower()`: lower-case every character. -/
def pyLower (s : String) : String :=
  String.mk (s.toList.map Char.toLower)

/-- Python `str.strip()`: drop whitespace from both ends. -/
def pyStrip (s : String) : String :=
  String.mk
    (((s.toList.dropWhile Char.isWhitespace).reverse.dropWhile Char.isWhitespace).reverse)

/-- Unit normalisation into kilograms, from `compute_totals_for_user`
(src/app.py lines 126-134): lower-case the unit; tonnes multiply by 1000,
grams divide by 1000, anything else is taken as kilograms. -/
def normalizeToKg (amount : ℚ) (unit : String) : ℚ :=
  let u := pyLower unit
  if u = "tonne" ∨ u = "tonnes" ∨ u = "t" then amount * 1000
  else if u = "g" ∨ u = "gram" ∨ u = "grams" then amount / 1000
  else amount

/-- A well-formed record of the emissions store, as written by
`add_emission`. `type`, `amount` and `unit` are read with `.get` in the
source, so they are optional here; `user_id` and `id` are indexed
directly. `created_at` is never read by the aggregation core. -/
structure EmissionRecord where
  id : Int
  user_id : Int
  type : Option String
  amount : Option ℚ
  unit : Option String
  created_at : String
deriving DecidableEq, Repr

/-- The totals mapping `{"co2": _, "no2": _, "ch4": _}` of
`compute_totals_for_user`. Its keys are fixed, so it is a structure. -/
structure Totals where
  co2 : ℚ
  no2 : ℚ
  ch4 : ℚ
deriving DecidableEq, Repr

def Totals.zero : Totals := ⟨0, 0, 0⟩

/-- Models `totals[etype] += x` for `etype` one of the three tracked gases;
any other key leaves the totals unchanged (in the source such a key
never reaches the update, thanks to the `etype not in totals` guard). -/
def Totals.add (t : Totals) (g : String) (x : ℚ) : Totals :=
  if g = "co2" then ⟨t.co2 + x, t.no2, t.ch4⟩
  else if g = "no2" then ⟨t.co2, t.no2 + x, t.ch4⟩
  else if g = "ch4" then ⟨t.co2, t.no2, t.ch4 + x⟩
  else t

/-- One loop iteration of `compute_totals_for_user` (src/app.py
lines 117-136): skip records of other users; skip types outside the
three tracked gases; `amount` defaults to 0, `unit` to the empty string
(`e.get("unit") or ""`), then normalise to kg and accumulate. -/
def totalsStep (user_id : Int) (t : Totals) (e : EmissionRecord) : Totals :=
  if e.user_id ≠ user_id then t
  else
    match e.type with
    | none => t
    | some etype =>
      if etype = "co2" ∨ etype = "no2" ∨ etype = "ch4" then
        t.add etype (normalizeToKg (e.amount.getD 0) (e.unit.getD ""))
      else t

/-- Models `compute_totals_for_user` (src/app.py lines 113-138) over a decoded
emissions store: fold the per-record step over all records, starting
from zeroed buckets. -/
def compute_totals_for_user (user_id : Int) (emissions : List EmissionRecord) : Totals :=
  emissions.foldl (totalsStep user_id) Totals.zero


-- ---------------------------------------------------------------------
-- Leaderboard entries and the logged-emissions builder
-- ---------------------------------------------------------------------

/-- The icon literal used for every leaderboard entry in src/app.py. -/
def medalIcon : String := "üèÖ"

/-- A leaderboard entry dict. `name` is `Option String` because the
logged-emissions builder sets it to `u.get("name") or u.get("email")`,
which is `None` when both fields are absent. -/
structure Entry where
  name : Option String
  emissions_kg : ℚ
  reduction_pct : ℚ
  subsidy_pct : ℚ
  icon : String
deriving DecidableEq, Repr

/-- Models `max(e["emissions_kg"] for e in entries)` on a non-empty list
(the source only evaluates it when `entries` is non-empty; on `[]` this
model returns 0, a value the source never produces there). -/
def maxKgOf : List Entry → ℚ
  | [] => 0
  | e :: es => es.foldl (fun m x => max m x.emissions_kg) e.emissions_kg

/-- Models `entries.sort(key=lambda x: x["emissions_kg"])`: a stable ascending
sort on `emissions_kg`, like Python's Timsort. -/
def sortByEmissions (l : List Entry) : List Entry :=
  l.mergeSort (fun a b => decide (a.emissions_kg ≤ b.emissions_kg))

/-- The per-entry update of `finalize_group` when `max_kg > 0`
(src/app.py lines 304-308): `rel = (max_kg - kg) / max_kg * 100`,
`reduction_pct = rel`, `subsidy_pct = round(max(0, min(40, rel)), 1)`. -/
def finalizeEntry (max_kg : ℚ) (e : Entry) : Entry :=
  let rel := (max_kg - e.emissions_kg) / max_kg * 100
  ⟨e.name, e.emissions_kg, rel, pyRound1 (max 0 (min 40 rel)), e.icon⟩

/-- Models `finalize_group` (src/app.py lines 296-312): empty groups and groups
whose maximum is non-positive are returned unchanged; otherwise every
entry gets its relative reduction and subsidy, and the group is sorted
ascending by `emissions_kg`. -/
def finalize_group (entries : List Entry) : List Entry :=
  if entries.isEmpty then entries
  else
    let max_kg := maxKgOf entries
    if max_kg ≤ 0 then entries
    else sortByEmissions (entries.map (finalizeEntry max_kg))

/-- A decoded record of the users store. `id` is indexed directly by the
builder; `name`, `email` and `user_type` are read with `.get`. -/
structure User where
  id : Int
  email : Option String
  name : Option String
  user_type : Option String
deriving DecidableEq, Repr

/-- Python's falsy-aware `a or b` on two optional strings, as in
`u.get("name") or u.get("email")`: `None` and `""` fall through. -/
def pyOrStr (a b : Option String) : Option String :=
  match a with
  | some s => if s = "" then b else some s
  | none => b

/-- The co2+no2+ch4 sum of a user's normalized totals
(src/app.py line 275). -/
def totalKgFor (emissions : List EmissionRecord) (u : User) : ℚ :=
  let t := compute_totals_for_user u.id emissions
  t.co2 + t.no2 + t.ch4

/-- The entry built for one user of the logged-emissions builder
(src/app.py lines 283-289), before `finalize_group` fills in
reduction and subsidy. -/
def rawEntryFor (emissions : List EmissionRecord) (u : User) : Entry :=
  ⟨pyOrStr u.name u.email, totalKgFor emissions u, 0, 0, medalIcon⟩

/-- One iteration of the user loop of `build_leaderboards_from_emissions`
(src/app.py lines 270-294): users with non-positive total are skipped;
unknown user types count as "hospital"; the entry is appended to the
matching group. -/
def groupStep (emissions : List EmissionRecord)
    (acc : List Entry × List Entry) (u : User) : List Entry × List Entry :=
  let raw_type := pyStrip (pyLower (u.user_type.getD ""))
  if totalKgFor emissions u ≤ 0 then acc
  else
    let raw_type2 :=
      if raw_type = "hospital" ∨ raw_type = "manufacturer" then raw_type
      else "hospital"
    let entry := rawEntryFor emissions u
    if raw_type2 = "hospital" then (acc.1 ++ [entry], acc.2)
    else if raw_type2 = "manufacturer" then (acc.1, acc.2 ++ [entry])
    else acc

/-- The hospital and manufacturer groups accumulated by the user loop. -/
def userGroups (users : List User) (emissions : List EmissionRecord) :
    List Entry × List Entry :=
  users.foldl (groupStep emissions) ([], [])

/-- Models `build_leaderboards_from_emissions` (src/app.py lines 254-317),
parametrised by the decoded users store and emissions store it loads. -/
def build_leaderboards_from_emissions (users : List User)
    (emissions : List EmissionRecord) : List Entry × List Entry :=
  let groups := userGroups users emissions
  (finalize_group groups.1, finalize_group groups.2)

-- ---------------------------------------------------------------------
-- The dataset (data.json) leaderboard builder
-- ---------------------------------------------------------------------

/-- The `hospital_profile` block of the dataset; only its `name` is read. -/
structure HospitalProfile where
  name : Option String
deriving DecidableEq, Repr

/-- The `carbon` block of a dataset item. -/
structure Carbon where
  annual_co2e_tonnes : Option ℚ
deriving DecidableEq, Repr

/-- The `costing` block of a dataset item. -/
structure Costing where
  annual_cost_rupees : Option ℚ
  annual_alternative_cost_rupees : Option ℚ
deriving DecidableEq, Repr

/-- The `sourcing` block of a dataset item. -/
structure Sourcing where
  suppliers : Option (List String)
deriving DecidableEq, Repr

/-- One item of the nested levers structure. Each block is optional
(`item.get("carbon", {})` and friends), as is each numeric field inside
(`carbon.get("annual_co2e_tonnes", 0.0)`). -/
structure Item where
  carbon : Option Carbon
  costing : Option Costing
  sourcing : Option Sourcing
deriving DecidableEq, Repr

/-- A sub-lever: the `.values()` of its `items` dict, in insertion
order (keys are never read). -/
structure SubLever where
  items : List Item
deriving DecidableEq, Repr

/-- A lever: the `.values()` of its `sub_levers` dict, in insertion
order. A missing `sub_levers` key (`lever.get("sub_levers", {})`) is the
empty list. -/
structure Lever where
  sub_levers : List SubLever
deriving DecidableEq, Repr

/-- The whole data.json document, as read by the builder. A missing
`levers` key (`data.get("levers", {})`) is the empty list. -/
structure MarketData where
  hospital_profile : Option HospitalProfile
  levers : List Lever
deriving DecidableEq, Repr

/-- Models `_iter_items` (src/app.py lines 152-157): flatten
levers → sub_levers → items into one sequence, in order. -/
def iter_items (data : MarketData) : List Item :=
  ((data.levers.map (fun lv => (lv.sub_levers.map SubLever.items).flatten)).flatten)

/-- Reads `float(item.get("carbon", {}).get("annual_co2e_tonnes", 0.0))`. -/
def itemTonnes (it : Item) : ℚ :=
  (it.carbon.bind Carbon.annual_co2e_tonnes).getD 0

/-- Reads `float(item.get("costing", {}).get("annual_cost_rupees", 0.0))`. -/
def itemCostCur (it : Item) : ℚ :=
  (it.costing.bind Costing.annual_cost_rupees).getD 0

/-- Reads `float(item.get("costing", {}).get("annual_alternative_cost_rupees", 0.0))`. -/
def itemCostAlt (it : Item) : ℚ :=
  (it.costing.bind Costing.annual_alternative_cost_rupees).getD 0

/-- Reads `item.get("sourcing", {}).get("suppliers", [])`. -/
def itemSuppliers (it : Item) : List String :=
  (it.sourcing.bind Sourcing.suppliers).getD []

/-- A per-supplier accumulator of the manufacturer loop
(src/app.py lines 219-226). -/
structure ManuAcc where
  tonnes : ℚ
  cost_cur : ℚ
  cost_alt : ℚ
deriving DecidableEq, Repr

/-- Models `manufacturers.setdefault(supplier, zeros)` followed by the three
`+=` updates: an insertion-ordered association list, updated in place
when the supplier is already present and appended otherwise. -/
def addToSupplier : List (String × ManuAcc) → String → ℚ → ℚ → ℚ →
    List (String × ManuAcc)
  | [], n, t, c, a => [(n, ⟨t, c, a⟩)]
  | (k, v) :: rest, n, t, c, a =>
    if k = n then (k, ⟨v.tonnes + t, v.cost_cur + c, v.cost_alt + a⟩) :: rest
    else (k, v) :: addToSupplier rest n t c a

/-- The manufacturer accumulation loop over all items
(src/app.py lines 212-226). -/
def manufacturerAccs (items : List Item) : List (String × ManuAcc) :=
  items.foldl
    (fun ms it =>
      (itemSuppliers it).foldl
        (fun ms2 s => addToSupplier ms2 s (itemTonnes it) (itemCostCur it) (itemCostAlt it))
        ms)
    []

/-- The manufacturer entry built from one accumulator
(src/app.py lines 229-242). -/
def manufacturerEntry (nm : String) (agg : ManuAcc) : Entry :=
  let red_pct :=
    if 0 < agg.cost_cur then (agg.cost_cur - agg.cost_alt) / agg.cost_cur * 100
    else 0
  ⟨some nm, agg.tonnes * 1000, red_pct, max 0 (min 40 (pyRound1 red_pct)), medalIcon⟩

/-- The single hospital entry of the dataset builder
(src/app.py lines 177-207). -/
def hospitalEntry (d : MarketData) : Entry :=
  let hospital_name := (d.hospital_profile.bind HospitalProfile.name).getD "Unknown Hospital"
  let items := iter_items d
  let total_tonnes := (items.map itemTonnes).sum
  let total_cost_current := (items.map itemCostCur).sum
  let total_cost_alt := (items.map itemCostAlt).sum
  let reduction_pct :=
    if 0 < total_cost_current then
      (total_cost_current - total_cost_alt) / total_cost_current * 100
    else 0
  ⟨some hospital_name, total_tonnes * 1000, reduction_pct,
    max 0 (min 40 (pyRound1 reduction_pct)), medalIcon⟩

/-- Models `build_leaderboards_from_data` (src/app.py lines 160-248). `none`
models an absent (falsy) dataset. Both lists are sorted ascending by
`emissions_kg` before being returned. -/
def build_leaderboards_from_data (data : Option MarketData) :
    List Entry × List Entry :=
  match data with
  | none => ([], [])
  | some d =>
    let leaders_hospitals := [hospitalEntry d]
    let leaders_manufacturers :=
      (manufacturerAccs (iter_items d)).map (fun p => manufacturerEntry p.1 p.2)
    (sortByEmissions leaders_hospitals, sortByEmissions leaders_manufacturers)

-- ---------------------------------------------------------------------
-- Raw-JSON level model for error behaviour
-- ---------------------------------------------------------------------

/-- A JSON value, as `json.load` produces it (floats as rationals). -/
inductive JVal where
  | null
  | bool (b : Bool)
  | num (q : ℚ)
  | str (s : String)
  | arr (elems : List JVal)
  | obj (fields : List (String × JVal))

/-- Python truthiness of a JSON value. -/
def JVal.falsy : JVal → Bool
  | .null => true
  | .bool b => !b
  | .num q => decide (q = 0)
  | .str s => decide (s = "")
  | .arr l => l.isEmpty
  | .obj l => l.isEmpty

/-- Models `v[k]` with a string key: `KeyError` on a dict without the key,
`TypeError` on anything that is not a dict. -/
def JVal.index (v : JVal) (k : String) : Except String JVal :=
  match v with
  | .obj kvs =>
    match kvs.find? (fun p => p.1 = k) with
    | some p => .ok p.2
    | none => .error ("KeyError: " ++ k)
  | _ => .error "TypeError: value is not subscriptable by a string"

/-- Models `v.get(k)` on a dict (`None` when the key is absent); the source
only calls `.get` on values already known to be dicts. -/
def JVal.dGet (v : JVal) (k : String) : Option JVal :=
  match v with
  | .obj kvs => (kvs.find? (fun p => p.1 = k)).map Prod.snd
  | _ => none

/-- Python `float()` on a JSON value: numbers pass through, booleans
become 0/1, everything else raises. Numeric strings (`float("5")`) are
not modelled; no input considered in this development carries a string
amount. -/
def pyFloat : JVal → Except String ℚ
  | .num q => .ok q
  | .bool b => .ok (if b then 1 else 0)
  | _ => .error "TypeError: float() argument"

/-- Models `e["user_id"] != user_id` for a session integer `user_id`: numbers
compare numerically, booleans as 0/1, any other JSON value is unequal. -/
def jsonEqInt (v : JVal) (n : Int) : Bool :=
  match v with
  | .num q => decide (q = (n : ℚ))
  | .bool b => decide ((if b then (1 : Int) else 0) = n)
  | _ => false

/-- Models `(e.get("unit") or "").lower()` before lower-casing: a missing or
falsy unit is the empty string; a truthy non-string raises
`AttributeError` at `.lower()`. -/
def unitStringOf (e : JVal) : Except String String :=
  match e.dGet "unit" with
  | none => .ok ""
  | some v =>
    if v.falsy then .ok ""
    else
      match v with
      | .str s => .ok s
      | _ => .error "AttributeError: lower"

/-- One loop iteration of `compute_totals_for_user` at the raw-JSON
level: `e["user_id"]` is a direct index and can raise; `type`, `amount`
and `unit` are read with `.get`; a non-string or untracked type is
skipped by the `etype not in totals` guard. -/
def totalsStepJson (user_id : Int) (t : Totals) (e : JVal) :
    Except String Totals := do
  let uidv ← e.index "user_id"
  if !(jsonEqInt uidv user_id) then pure t
  else
    match e.dGet "type" with
    | some (.str s) =>
      if s = "co2" ∨ s = "no2" ∨ s = "ch4" then do
        let amount ← pyFloat ((e.dGet "amount").getD (.num 0))
        let unit ← unitStringOf e
        pure (t.add s (normalizeToKg amount unit))
      else pure t
    | _ => pure t

/-- Models `for e in data["emissions"]`: Python iterates lists elementwise,
strings by character and dicts by key; anything else raises. -/
def jsonIterate (v : JVal) : Except String (List JVal) :=
  match v with
  | .arr xs => .ok xs
  | .str s => .ok (s.toList.map (fun c => JVal.str (String.mk [c])))
  | .obj kvs => .ok (kvs.map (fun p => JVal.str p.1))
  | _ => .error "TypeError: value is not iterable"

/-- Models `compute_totals_for_user` (src/app.py lines 113-138) at the
raw-JSON level, for analysing its behaviour on arbitrary decoded
content of emissions.json: `data["emissions"]` is a direct index and
can raise, as can each record access. -/
def computeTotalsForUserJson (user_id : Int) (data : JVal) :
    Except String Totals := do
  let ems ← data.index "emissions"
  let elems ← jsonIterate ems
  elems.foldlM (totalsStepJson user_id) Totals.zero

/-- Models `load_emissions` (src/app.py lines 79-87). `fileContent` is `none`
when emissions.json does not exist, `some (.error _)` when it exists
but `json.load` fails, and `some (.ok v)` when it decodes to `v`. A
missing or undecodable file becomes the empty store; a decoded value is
returned as is, with no check that it is a dict holding an
`"emissions"` key. -/
def load_emissions (fileContent : Option (Except String JVal)) : JVal :=
  match fileContent with
  | none => .obj [("emissions", .arr [])]
  | some (.error _) => .obj [("emissions", .arr [])]
  | some (.ok v) => v

/-- Models `load_market_data` (src/app.py lines 144-149): a missing data.json
yields `None`, but a `json.load` failure propagates — there is no
try/except around it. -/
def load_market_data (fileContent : Option (Except String JVal)) :
    Except String (Option JVal) :=
  match fileContent with
  | none => .ok none
  | some (.error e) => .error e
  | some (.ok v) => .ok (some v)


-- ---------------------------------------------------------------------
-- Rounding lemmas
-- ---------------------------------------------------------------------

theorem roundHalfEven_le (q : ℚ) : (roundHalfEven q : ℚ) ≤ q + 1/2 := by
  have hfl : (⌊q⌋ : ℚ) ≤ q := Int.floor_le q
  have hfl2 : q < (⌊q⌋ : ℚ) + 1 := Int.lt_floor_add_one q
  unfold roundHalfEven
  split_ifs <;> push_cast <;> linarith

theorem le_roundHalfEven (q : ℚ) : q - 1/2 ≤ (roundHalfEven q : ℚ) := by
  have hfl : (⌊q⌋ : ℚ) ≤ q := Int.floor_le q
  have hfl2 : q < (⌊q⌋ : ℚ) + 1 := Int.lt_floor_add_one q
  unfold roundHalfEven
  split_ifs <;> push_cast <;> linarith

theorem roundHalfEven_intCast (n : ℤ) : roundHalfEven (n : ℚ) = n := by
  unfold roundHalfEven
  rw [Int.floor_intCast]
  norm_num

theorem pyRound1_intCast (n : ℤ) : pyRound1 (n : ℚ) = n := by
  unfold pyRound1
  have : ((n : ℚ) * 10) = ((n * 10 : ℤ) : ℚ) := by push_cast; ring
  rw [this, roundHalfEven_intCast]
  push_cast
  ring

/-- If `x ≤ 0` then `round(x, 1) ≤ 0` (the rounded value is an integer
number of tenths, and it is below `x + 1/20`). -/
theorem pyRound1_nonpos {x : ℚ} (h : x ≤ 0) : pyRound1 x ≤ 0 := by
  unfold pyRound1
  have h1 : (roundHalfEven (x * 10) : ℚ) ≤ x * 10 + 1/2 := roundHalfEven_le _
  have h2 : (roundHalfEven (x * 10) : ℚ) ≤ 1/2 := by linarith
  have h3 : roundHalfEven (x * 10) ≤ 0 := by
    by_contra hc
    push_neg at hc
    have : (1 : ℚ) ≤ (roundHalfEven (x * 10) : ℚ) := by exact_mod_cast hc
    linarith
  have : (roundHalfEven (x * 10) : ℚ) ≤ 0 := by exact_mod_cast h3
  linarith

/-- If `40 ≤ x` then `40 ≤ round(x, 1)`. -/
theorem pyRound1_ge_forty {x : ℚ} (h : 40 ≤ x) : 40 ≤ pyRound1 x := by
  unfold pyRound1
  have h1 : x * 10 - 1/2 ≤ (roundHalfEven (x * 10) : ℚ) := le_roundHalfEven _
  have h2 : (399.5 : ℚ) ≤ (roundHalfEven (x * 10) : ℚ) := by linarith
  have h3 : (400 : ℤ) ≤ roundHalfEven (x * 10) := by
    by_contra hc
    push_neg at hc
    have : (roundHalfEven (x * 10) : ℚ) ≤ 399 := by
      have : roundHalfEven (x * 10) ≤ 399 := by omega
      exact_mod_cast this
    linarith
  have : (400 : ℚ) ≤ (roundHalfEven (x * 10) : ℚ) := by exact_mod_cast h3
  linarith

/-- If `0 ≤ x` then `0 ≤ round(x, 1)`. -/
theorem pyRound1_nonneg {x : ℚ} (h : 0 ≤ x) : 0 ≤ pyRound1 x := by
  unfold pyRound1
  have h1 : x * 10 - 1/2 ≤ (roundHalfEven (x * 10) : ℚ) := le_roundHalfEven _
  have h3 : (0 : ℤ) ≤ roundHalfEven (x * 10) := by
    by_contra hc
    push_neg at hc
    have : (roundHalfEven (x * 10) : ℚ) ≤ -1 := by
      have : roundHalfEven (x * 10) ≤ -1 := by omega
      exact_mod_cast this
    linarith
  have : (0 : ℚ) ≤ (roundHalfEven (x * 10) : ℚ) := by exact_mod_cast h3
  linarith

/-- If `x ≤ 40` then `round(x, 1) ≤ 40`. -/
theorem pyRound1_le_forty {x : ℚ} (h : x ≤ 40) : pyRound1 x ≤ 40 := by
  unfold pyRound1
  have h1 : (roundHalfEven (x * 10) : ℚ) ≤ x * 10 + 1/2 := roundHalfEven_le _
  have h3 : roundHalfEven (x * 10) ≤ 400 := by
    by_contra hc
    push_neg at hc
    have : (401 : ℚ) ≤ (roundHalfEven (x * 10) : ℚ) := by
      have : (401 : ℤ) ≤ roundHalfEven (x * 10) := by omega
      exact_mod_cast this
    linarith
  have : (roundHalfEven (x * 10) : ℚ) ≤ 400 := by exact_mod_cast h3
  linarith

/-- Rounding after clamping to `[0, 40]` coincides with clamping after
rounding: the logged-emissions builder computes
`round(clamp(rel, 0, 40), 1)` while the dataset builder computes
`clamp(round(pct, 1), 0, 40)`; the two agree on every input. -/
theorem pyRound1_clamp_comm (x : ℚ) :
    pyRound1 (max 0 (min 40 x)) = clampRound x := by
  unfold clampRound
  rcases le_or_lt x 0 with hx | hx
  · have hmin : min 40 x = x := min_eq_right (by linarith)
    have hmax : max 0 x = 0 := max_eq_left (by linarith)
    rw [hmin, hmax]
    have h0 : pyRound1 0 = 0 := by
      have := pyRound1_intCast 0
      simpa using this
    rw [h0]
    have hr : pyRound1 x ≤ 0 := pyRound1_nonpos hx
    have hmin2 : min 40 (pyRound1 x) = pyRound1 x := min_eq_right (by linarith)
    rw [hmin2, max_eq_left hr]
  · rcases le_or_lt x 40 with hx40 | hx40
    · have hmin : min 40 x = x := min_eq_right hx40
      have hmax : max 0 x = x := max_eq_right (by linarith)
      rw [hmin, hmax]
      have h1 : 0 ≤ pyRound1 x := pyRound1_nonneg (by linarith)
      have h2 : pyRound1 x ≤ 40 := pyRound1_le_forty hx40
      rw [min_eq_right h2, max_eq_right h1]
    · have hmin : min 40 x = 40 := min_eq_left (by linarith)
      rw [hmin]
      have hmax : max 0 (40 : ℚ) = 40 := max_eq_right (by norm_num)
      rw [hmax]
      have h40 : pyRound1 (40 : ℚ) = 40 := by
        have := pyRound1_intCast 40
        simpa using this
      rw [h40]
      have hr : 40 ≤ pyRound1 x := pyRound1_ge_forty (by linarith)
      have hmin2 : min 40 (pyRound1 x) = 40 := min_eq_left hr
      rw [hmin2, max_eq_right (by norm_num)]

theorem clampRound_nonneg (x : ℚ) : 0 ≤ clampRound x := le_max_left 0 _

theorem clampRound_le_forty (x : ℚ) : clampRound x ≤ 40 := by
  unfold clampRound
  have h1 : min 40 (pyRound1 x) ≤ 40 := min_le_left _ _
  exact max_le (by norm_num) h1
theorem clampRound_zero : clampRound 0 = 0 := by
  have h0 : pyRound1 0 = 0 := by
    have := pyRound1_intCast 0
    exact_mod_cast this
  unfold clampRound
  rw [h0]
  norm_num

theorem pyRound1_twenty : pyRound1 20 = 20 := by
  have := pyRound1_intCast 20
  exact_mod_cast this

theorem pyRound1_forty : pyRound1 40 = 40 := by
  have := pyRound1_intCast 40
  exact_mod_cast this

theorem pyRound1_zero : pyRound1 0 = 0 := by
  have := pyRound1_intCast 0
  exact_mod_cast this

-- ---------------------------------------------------------------------
-- Sorting and finalize_group lemmas
-- ---------------------------------------------------------------------

theorem mem_sortByEmissions {e : Entry} {l : List Entry} :
    e ∈ sortByEmissions l ↔ e ∈ l := by
  unfold sortByEmissions
  exact List.mem_mergeSort

theorem sortByEmissions_sorted (l : List Entry) :
    (sortByEmissions l).Pairwise (fun a b => a.emissions_kg ≤ b.emissions_kg) := by
  unfold sortByEmissions
  have h := @List.sorted_mergeSort Entry
    (fun a b : Entry => decide (a.emissions_kg ≤ b.emissions_kg))
    (fun a b c hab hbc => by
      simp only [decide_eq_true_eq] at *
      exact le_trans hab hbc)
    (fun a b => by
      simp only [Bool.or_eq_true, decide_eq_true_eq]
      exact le_total _ _)
    l
  exact h.imp (fun hab => by simpa using hab)

theorem sortByEmissions_singleton (a : Entry) : sortByEmissions [a] = [a] := by
  simp [sortByEmissions]

theorem sortByEmissions_pair_le {a b : Entry} (h : a.emissions_kg ≤ b.emissions_kg) :
    sortByEmissions [a, b] = [a, b] := by
  unfold sortByEmissions
  exact List.mergeSort_of_sorted (by simp [h])

theorem finalizeEntry_emissions (m : ℚ) (e : Entry) :
    (finalizeEntry m e).emissions_kg = e.emissions_kg := rfl

theorem finalizeEntry_name (m : ℚ) (e : Entry) :
    (finalizeEntry m e).name = e.name := rfl

theorem finalizeEntry_reduction (m : ℚ) (e : Entry) :
    (finalizeEntry m e).reduction_pct = (m - e.emissions_kg) / m * 100 := rfl

theorem finalizeEntry_subsidy (m : ℚ) (e : Entry) :
    (finalizeEntry m e).subsidy_pct = clampRound (finalizeEntry m e).reduction_pct := by
  show pyRound1 (max 0 (min 40 _)) = _
  exact pyRound1_clamp_comm _

theorem finalize_group_of_pos {l : List Entry} (hm : 0 < maxKgOf l) :
    finalize_group l = sortByEmissions (l.map (finalizeEntry (maxKgOf l))) := by
  unfold finalize_group
  have hne : l ≠ [] := by
    intro h
    rw [h] at hm
    simp [maxKgOf] at hm
  rw [if_neg (by simpa [List.isEmpty_iff] using hne), if_neg (not_le.mpr hm)]

/-- Membership in a finalized group: either the group was returned
unchanged (empty or non-positive maximum), or the entry is the update of
an input entry. -/
theorem finalize_group_mem {l : List Entry} {e : Entry} (h : e ∈ finalize_group l) :
    (e ∈ l ∧ maxKgOf l ≤ 0) ∨
      (0 < maxKgOf l ∧ ∃ e0 ∈ l, e = finalizeEntry (maxKgOf l) e0) := by
  rcases le_or_lt (maxKgOf l) 0 with hm | hm
  · left
    refine ⟨?_, hm⟩
    unfold finalize_group at h
    by_cases hne : l.isEmpty
    · rwa [if_pos hne] at h
    · rwa [if_neg hne, if_pos hm] at h
  · right
    refine ⟨hm, ?_⟩
    rw [finalize_group_of_pos hm] at h
    rw [mem_sortByEmissions] at h
    obtain ⟨e0, he0, heq⟩ := List.mem_map.mp h
    exact ⟨e0, he0, heq.symm⟩

/-- Every entry of a finalized group keeps the name and emissions of
some entry of the input group. -/
theorem finalize_group_src {l : List Entry} {e : Entry} (h : e ∈ finalize_group l) :
    ∃ e0 ∈ l, e.name = e0.name ∧ e.emissions_kg = e0.emissions_kg := by
  rcases finalize_group_mem h with ⟨hl, _⟩ | ⟨_, e0, he0, heq⟩
  · exact ⟨e, hl, rfl, rfl⟩
  · exact ⟨e0, he0, by rw [heq, finalizeEntry_name], by rw [heq, finalizeEntry_emissions]⟩

theorem le_foldl_maxKg (es : List Entry) : ∀ m : ℚ,
    m ≤ es.foldl (fun m x => max m x.emissions_kg) m := by
  induction es with
  | nil => intro m; simp
  | cons x xs ih =>
    intro m
    calc m ≤ max m x.emissions_kg := le_max_left _ _
    _ ≤ xs.foldl (fun m x => max m x.emissions_kg) (max m x.emissions_kg) := ih _

theorem maxKgOf_pos {l : List Entry} (hne : l ≠ [])
    (hpos : ∀ e ∈ l, 0 < e.emissions_kg) : 0 < maxKgOf l := by
  match l, hne with
  | e :: es, _ =>
    have h1 : 0 < e.emissions_kg := hpos e (by simp)
    have h2 := le_foldl_maxKg es e.emissions_kg
    calc (0 : ℚ) < e.emissions_kg := h1
    _ ≤ _ := h2

-- ---------------------------------------------------------------------
-- The user loop of the logged-emissions builder
-- ---------------------------------------------------------------------

theorem groupStep_skip {emissions : List EmissionRecord} {u : User}
    (h : totalKgFor emissions u ≤ 0) (acc : List Entry × List Entry) :
    groupStep emissions acc u = acc := by
  unfold groupStep
  simp [h]

theorem groupStep_foldl_mem (emissions : List EmissionRecord) :
    ∀ (us : List User) (acc : List Entry × List Entry) (e : Entry),
    (e ∈ (us.foldl (groupStep emissions) acc).1 ∨
     e ∈ (us.foldl (groupStep emissions) acc).2) →
    (e ∈ acc.1 ∨ e ∈ acc.2) ∨
      ∃ u ∈ us, 0 < totalKgFor emissions u ∧ e = rawEntryFor emissions u := by
  intro us
  induction us with
  | nil => intro acc e h; exact Or.inl h
  | cons u us ih =>
    intro acc e h
    rcases ih (groupStep emissions acc u) e h with hacc | ⟨u', hu', hpos, heq⟩
    · by_cases ht : totalKgFor emissions u ≤ 0
      · rw [groupStep_skip ht] at hacc
        exact Or.inl hacc
      · have hpos : 0 < totalKgFor emissions u := lt_of_not_le ht
        unfold groupStep at hacc
        rw [if_neg ht] at hacc
        set rt := if pyStrip (pyLower (u.user_type.getD "")) = "hospital" ∨
            pyStrip (pyLower (u.user_type.getD "")) = "manufacturer" then
            pyStrip (pyLower (u.user_type.getD "")) else "hospital" with hrt
        by_cases hh : rt = "hospital"
        · rw [if_pos hh] at hacc
          rcases hacc with hacc | hacc
          · rcases List.mem_append.mp hacc with h1 | h1
            · exact Or.inl (Or.inl h1)
            · refine Or.inr ⟨u, by simp, hpos, ?_⟩
              simpa using h1
          · exact Or.inl (Or.inr hacc)
        · rw [if_neg hh] at hacc
          by_cases hm : rt = "manufacturer"
          · rw [if_pos hm] at hacc
            rcases hacc with hacc | hacc
            · exact Or.inl (Or.inl hacc)
            · rcases List.mem_append.mp hacc with h1 | h1
              · exact Or.inl (Or.inr h1)
              · refine Or.inr ⟨u, by simp, hpos, ?_⟩
                simpa using h1
          · rw [if_neg hm] at hacc
            exact Or.inl hacc
    · exact Or.inr ⟨u', by simp [hu'], hpos, heq⟩

/-- Every entry of either group of the user loop comes from a user of
the registry whose total is positive. -/
theorem userGroups_mem {users : List User} {emissions : List EmissionRecord} {e : Entry}
    (h : e ∈ (userGroups users emissions).1 ∨ e ∈ (userGroups users emissions).2) :
    ∃ u ∈ users, 0 < totalKgFor emissions u ∧ e = rawEntryFor emissions u := by
  rcases groupStep_foldl_mem emissions users ([], []) e h with habs | hgood
  · simp at habs
  · exact hgood

-- ---------------------------------------------------------------------
-- Aggregator step lemmas
-- ---------------------------------------------------------------------

/-- A record of another user, or with an untracked (or missing) type, is
skipped by the aggregation step. -/
theorem totalsStep_skip {uid : Int} {t : Totals} {e : EmissionRecord}
    (h : e.user_id ≠ uid ∨
      e.type ∉ ([some "co2", some "no2", some "ch4"] : List (Option String))) :
    totalsStep uid t e = t := by
  unfold totalsStep
  by_cases hu : e.user_id ≠ uid
  · simp [hu]
  · rw [if_neg hu]
    rcases h with h | h
    · exact absurd h hu
    · cases he : e.type with
      | none => simp
      | some s =>
        have hs : ¬(s = "co2" ∨ s = "no2" ∨ s = "ch4") := by
          intro hc
          apply h
          rw [he]
          rcases hc with h1 | h1 | h1 <;> simp [h1]
        simp [hs]

/-- A matching record with a tracked type accumulates its normalized
amount into the matching bucket. -/
theorem totalsStep_add {uid : Int} {t : Totals} {e : EmissionRecord} {g : String}
    (hu : e.user_id = uid) (hg : e.type = some g)
    (htr : g = "co2" ∨ g = "no2" ∨ g = "ch4") :
    totalsStep uid t e = t.add g (normalizeToKg (e.amount.getD 0) (e.unit.getD "")) := by
  unfold totalsStep
  rw [if_neg (by simp [hu]), hg]
  simp [htr]

theorem compute_totals_skip_middle {uid : Int} {e : EmissionRecord}
    (es1 es2 : List EmissionRecord)
    (h : e.user_id ≠ uid ∨
      e.type ∉ ([some "co2", some "no2", some "ch4"] : List (Option String))) :
    compute_totals_for_user uid (es1 ++ e :: es2) =
      compute_totals_for_user uid (es1 ++ es2) := by
  unfold compute_totals_for_user
  rw [List.foldl_append, List.foldl_append]
  simp only [List.foldl_cons]
  rw [totalsStep_skip h]

-- ---------------------------------------------------------------------
-- Claim theorems
-- ---------------------------------------------------------------------

/-- C2: the unit normalization is, case-insensitively: tonne/tonnes/t
multiply by 1000; g/gram/grams divide by 1000; any other unit (kg, the
empty string, anything unrecognized) leaves the amount unchanged and
raises no error; with the five concrete examples of the spec. -/
theorem C2_unit_normalizer (a : ℚ) (u : String) :
    (pyLower u ∈ (["tonne", "tonnes", "t"] : List String) →
      normalizeToKg a u = a * 1000) ∧
    (pyLower u ∈ (["g", "gram", "grams"] : List String) →
      normalizeToKg a u = a / 1000) ∧
    (pyLower u ∉ (["tonne", "tonnes", "t", "g", "gram", "grams"] : List String) →
      normalizeToKg a u = a) ∧
    normalizeToKg 1 "t" = 1000 ∧
    normalizeToKg 1000 "g" = 1 ∧
    normalizeToKg 5 "kg" = 5 ∧
    normalizeToKg 5 "" = 5 ∧
    normalizeToKg 5 "TONNES" = 5000 := by
  refine ⟨?_, ?_, ?_, ?_, ?_, ?_, ?_, ?_⟩
  · intro h
    simp only [List.mem_cons, List.mem_singleton, List.not_mem_nil, or_false] at h
    simp only [normalizeToKg]
    rw [if_pos h]
  · intro h
    simp only [List.mem_cons, List.mem_singleton, List.not_mem_nil, or_false] at h
    have hne : ¬(pyLower u = "tonne" ∨ pyLower u = "tonnes" ∨ pyLower u = "t") := by
      rcases h with h1 | h1 | h1 <;> rw [h1] <;> decide
    simp only [normalizeToKg]
    rw [if_neg hne, if_pos h]
  · intro h
    simp only [List.mem_cons, List.mem_singleton, List.not_mem_nil, or_false,
      not_or] at h
    obtain ⟨h1, h2, h3, h4, h5, h6⟩ := h
    simp only [normalizeToKg]
    rw [if_neg (by tauto), if_neg (by tauto)]
  · simp only [normalizeToKg, show pyLower "t" = "t" from rfl]
    simp
  · simp only [normalizeToKg, show pyLower "g" = "g" from rfl]
    simp
  · simp only [normalizeToKg, show pyLower "kg" = "kg" from rfl]
    simp
  · simp only [normalizeToKg, show pyLower "" = "" from rfl]
    simp
  · simp only [normalizeToKg, show pyLower "TONNES" = "tonnes" from rfl]
    simp
    norm_num

/-- Witness for C2 at concrete inputs: an upper-case tonne unit, a
mixed-case gram unit and an unrecognized unit. -/
theorem C2_unit_normalizer_witness :
    normalizeToKg 2 "T" = 2 * 1000 ∧
    normalizeToKg 3 "Grams" = 3 / 1000 ∧
    normalizeToKg 7 "lbs" = 7 :=
  ⟨(C2_unit_normalizer 2 "T").1 (by decide),
   (C2_unit_normalizer 3 "Grams").2.1 (by decide),
   (C2_unit_normalizer 7 "lbs").2.2.1 (by decide)⟩

/-- C3: `compute_totals_for_user` returns the three fixed gas buckets
co2/no2/ch4, all starting at 0.0; records of other users and records
with an untracked (or missing) type are silently dropped wherever they
sit in the log; a matching record with a tracked type accumulates its
kilogram-normalized amount into the matching bucket; and the spec's two
concrete examples hold (the so2 record leaves the totals unchanged). -/
theorem C3_user_emission_aggregator (uid : Int)
    (es es1 es2 : List EmissionRecord) (e : EmissionRecord) (g : String) :
    compute_totals_for_user uid [] = Totals.zero ∧
    (e.user_id ≠ uid ∨
        e.type ∉ ([some "co2", some "no2", some "ch4"] : List (Option String)) →
      compute_totals_for_user uid (es1 ++ e :: es2) =
        compute_totals_for_user uid (es1 ++ es2)) ∧
    (e.user_id = uid → e.type = some g →
      g ∈ (["co2", "no2", "ch4"] : List String) →
      compute_totals_for_user uid (es ++ [e]) =
        (compute_totals_for_user uid es).add g
          (normalizeToKg (e.amount.getD 0) (e.unit.getD ""))) ∧
    compute_totals_for_user 1
      [⟨1, 1, some "co2", some 5, some "kg", ""⟩,
       ⟨2, 1, some "co2", some 1, some "t", ""⟩,
       ⟨3, 1, some "ch4", some 500, some "g", ""⟩] = ⟨1005, 0, 1/2⟩ ∧
    compute_totals_for_user 1
      [⟨1, 1, some "co2", some 5, some "kg", ""⟩,
       ⟨2, 1, some "co2", some 1, some "t", ""⟩,
       ⟨3, 1, some "ch4", some 500, some "g", ""⟩,
       ⟨4, 1, some "so2", some 10, some "kg", ""⟩] = ⟨1005, 0, 1/2⟩ := by
  refine ⟨rfl, ?_, ?_, ?_, ?_⟩
  · intro h
    exact compute_totals_skip_middle es1 es2 h
  · intro hu hg htr
    simp only [List.mem_cons, List.mem_singleton, List.not_mem_nil, or_false] at htr
    unfold compute_totals_for_user
    rw [List.foldl_append]
    simp only [List.foldl_cons, List.foldl_nil]
    exact totalsStep_add hu hg htr
  · simp only [compute_totals_for_user, totalsStep, Totals.zero, Totals.add,
      normalizeToKg, List.foldl, show pyLower "kg" = "kg" from rfl,
      show pyLower "t" = "t" from rfl, show pyLower "g" = "g" from rfl, Option.getD]
    simp
    norm_num
  · simp only [compute_totals_for_user, totalsStep, Totals.zero, Totals.add,
      normalizeToKg, List.foldl, show pyLower "kg" = "kg" from rfl,
      show pyLower "t" = "t" from rfl, show pyLower "g" = "g" from rfl, Option.getD]
    simp
    norm_num

/-- Witness for C3 at concrete inputs: an untracked so2 record and a
record of another user are dropped from a concrete log, and a tracked
tonne record accumulates into the co2 bucket. -/
theorem C3_user_emission_aggregator_witness :
    (compute_totals_for_user 1
        ([] ++ (⟨9, 1, some "so2", some 10, some "kg", ""⟩ : EmissionRecord) ::
          [⟨1, 1, some "co2", some 5, some "kg", ""⟩]) =
      compute_totals_for_user 1 ([] ++ [⟨1, 1, some "co2", some 5, some "kg", ""⟩])) ∧
    (compute_totals_for_user 1
        ([⟨1, 1, some "co2", some 5, some "kg", ""⟩] ++
          (⟨9, 2, some "co2", some 10, some "kg", ""⟩ : EmissionRecord) :: []) =
      compute_totals_for_user 1 ([⟨1, 1, some "co2", some 5, some "kg", ""⟩] ++ [])) ∧
    (compute_totals_for_user 1 ([] ++ [⟨9, 1, some "co2", some 2, some "t", ""⟩]) =
      (compute_totals_for_user 1 []).add "co2"
        (normalizeToKg ((2 : ℚ)) "t")) :=
  ⟨((C3_user_emission_aggregator 1 [] []
      [⟨1, 1, some "co2", some 5, some "kg", ""⟩]
      ⟨9, 1, some "so2", some 10, some "kg", ""⟩ "so2").2.1 (by decide)),
   ((C3_user_emission_aggregator 1 []
      [⟨1, 1, some "co2", some 5, some "kg", ""⟩] []
      ⟨9, 2, some "co2", some 10, some "kg", ""⟩ "co2").2.1 (by decide)),
   ((C3_user_emission_aggregator 1 [] [] []
      ⟨9, 1, some "co2", some 2, some "t", ""⟩ "co2").2.2.1 rfl rfl (by decide))⟩

theorem hospitalEntry_subsidy (d : MarketData) :
    (hospitalEntry d).subsidy_pct = clampRound (hospitalEntry d).reduction_pct := rfl

theorem manufacturerEntry_subsidy (nm : String) (agg : ManuAcc) :
    (manufacturerEntry nm agg).subsidy_pct =
      clampRound (manufacturerEntry nm agg).reduction_pct := rfl

theorem finalize_group_subsidy_inv {l : List Entry}
    (hl : ∀ e0 ∈ l, e0.subsidy_pct = clampRound e0.reduction_pct) :
    ∀ e ∈ finalize_group l, e.subsidy_pct = clampRound e.reduction_pct := by
  intro e he
  rcases finalize_group_mem he with ⟨hmem, _⟩ | ⟨_, e0, he0, heq⟩
  · exact hl e hmem
  · rw [heq]
    exact finalizeEntry_subsidy _ _

/-- C1: every entry produced by either leaderboard builder satisfies
`subsidy_pct = clamp(round(reduction_pct, 1), 0, 40)`, and therefore
`subsidy_pct` lies in `[0, 40]`, for every input. -/
theorem C1_subsidy_clamped (dataOpt : Option MarketData) (users : List User)
    (emissions : List EmissionRecord) (e : Entry)
    (h : e ∈ (build_leaderboards_from_data dataOpt).1 ∨
         e ∈ (build_leaderboards_from_data dataOpt).2 ∨
         e ∈ (build_leaderboards_from_emissions users emissions).1 ∨
         e ∈ (build_leaderboards_from_emissions users emissions).2) :
    e.subsidy_pct = clampRound e.reduction_pct ∧
    0 ≤ e.subsidy_pct ∧ e.subsidy_pct ≤ 40 := by
  have key : e.subsidy_pct = clampRound e.reduction_pct := by
    rcases h with h | h | h | h
    · cases dataOpt with
      | none => simp [build_leaderboards_from_data] at h
      | some d =>
        simp only [build_leaderboards_from_data] at h
        rw [mem_sortByEmissions] at h
        rw [List.mem_singleton.mp h]
        exact hospitalEntry_subsidy d
    · cases dataOpt with
      | none => simp [build_leaderboards_from_data] at h
      | some d =>
        simp only [build_leaderboards_from_data] at h
        rw [mem_sortByEmissions] at h
        obtain ⟨p, _, heq⟩ := List.mem_map.mp h
        rw [← heq]
        exact manufacturerEntry_subsidy p.1 p.2
    · simp only [build_leaderboards_from_emissions] at h
      refine finalize_group_subsidy_inv ?_ e h
      intro e0 he0
      obtain ⟨u, _, _, heq⟩ := userGroups_mem (Or.inl he0)
      rw [heq]
      show (0 : ℚ) = clampRound 0
      exact clampRound_zero.symm
    · simp only [build_leaderboards_from_emissions] at h
      refine finalize_group_subsidy_inv ?_ e h
      intro e0 he0
      obtain ⟨u, _, _, heq⟩ := userGroups_mem (Or.inr he0)
      rw [heq]
      show (0 : ℚ) = clampRound 0
      exact clampRound_zero.symm
  refine ⟨key, ?_, ?_⟩
  · rw [key]
    exact clampRound_nonneg _
  · rw [key]
    exact clampRound_le_forty _

/-- Witness for C1: the hospital entry of a concrete one-item dataset
whose reduction percentage is 1000 (cost 1000 against alternative cost
-9000) has its subsidy clamped into [0, 40]. -/
theorem C1_subsidy_clamped_witness :
    (hospitalEntry ⟨some ⟨some "H"⟩,
        [⟨[⟨[⟨none, some ⟨some 1000, some (-9000)⟩, none⟩]⟩]⟩]⟩).subsidy_pct =
      clampRound (hospitalEntry ⟨some ⟨some "H"⟩,
        [⟨[⟨[⟨none, some ⟨some 1000, some (-9000)⟩, none⟩]⟩]⟩]⟩).reduction_pct ∧
    0 ≤ (hospitalEntry ⟨some ⟨some "H"⟩,
        [⟨[⟨[⟨none, some ⟨some 1000, some (-9000)⟩, none⟩]⟩]⟩]⟩).subsidy_pct ∧
    (hospitalEntry ⟨some ⟨some "H"⟩,
        [⟨[⟨[⟨none, some ⟨some 1000, some (-9000)⟩, none⟩]⟩]⟩]⟩).subsidy_pct ≤ 40 :=
  C1_subsidy_clamped
    (some ⟨some ⟨some "H"⟩, [⟨[⟨[⟨none, some ⟨some 1000, some (-9000)⟩, none⟩]⟩]⟩]⟩)
    [] [] _
    (Or.inl (by
      simp only [build_leaderboards_from_data]
      rw [sortByEmissions_singleton]
      exact List.mem_singleton.mpr rfl))

/-- C4: in a group whose maximum emissions are positive, every finalized
entry carries `reduction_pct = (max_kg - emissions_kg) / max_kg * 100`,
so an entry at the maximum scores exactly 0 and lower emitters score
higher reductions; with the spec's two-hospital example (100 kg and
200 kg give 50.0 and 0.0, in sorted order). -/
theorem C4_relative_reduction (l : List Entry) (hm : 0 < maxKgOf l) :
    (∀ e ∈ finalize_group l,
      e.reduction_pct = (maxKgOf l - e.emissions_kg) / maxKgOf l * 100 ∧
      (e.emissions_kg = maxKgOf l → e.reduction_pct = 0) ∧
      ∀ e2 ∈ finalize_group l, e2.emissions_kg ≤ e.emissions_kg →
        e.reduction_pct ≤ e2.reduction_pct) ∧
    finalize_group
      [⟨some "hospital A", 100, 0, 0, medalIcon⟩,
       ⟨some "hospital B", 200, 0, 0, medalIcon⟩] =
      [⟨some "hospital A", 100, 50, 40, medalIcon⟩,
       ⟨some "hospital B", 200, 0, 0, medalIcon⟩] := by
  constructor
  · have hred : ∀ e ∈ finalize_group l,
        e.reduction_pct = (maxKgOf l - e.emissions_kg) / maxKgOf l * 100 := by
      intro e he
      rcases finalize_group_mem he with ⟨_, hle⟩ | ⟨_, e0, _, heq⟩
      · linarith
      · rw [heq, finalizeEntry_reduction, finalizeEntry_emissions]
    intro e he
    refine ⟨hred e he, ?_, ?_⟩
    · intro hkg
      rw [hred e he, hkg]
      simp
    · intro e2 he2 hle
      rw [hred e he, hred e2 he2]
      have h1 : maxKgOf l - e.emissions_kg ≤ maxKgOf l - e2.emissions_kg := by
        linarith
      have h2 : (maxKgOf l - e.emissions_kg) / maxKgOf l ≤
          (maxKgOf l - e2.emissions_kg) / maxKgOf l :=
        (div_le_div_iff_of_pos_right hm).mpr h1
      exact mul_le_mul_of_nonneg_right h2 (by norm_num)
  · have hmax : maxKgOf
        [⟨some "hospital A", 100, 0, 0, medalIcon⟩,
         ⟨some "hospital B", 200, 0, 0, medalIcon⟩] = 200 := by
      simp [maxKgOf]
      norm_num [max_def]
    rw [finalize_group_of_pos (by rw [hmax]; norm_num), hmax]
    rw [show List.map (finalizeEntry 200)
        [⟨some "hospital A", 100, 0, 0, medalIcon⟩,
         ⟨some "hospital B", 200, 0, 0, medalIcon⟩] =
        [finalizeEntry 200 ⟨some "hospital A", 100, 0, 0, medalIcon⟩,
         finalizeEntry 200 ⟨some "hospital B", 200, 0, 0, medalIcon⟩] from rfl]
    rw [sortByEmissions_pair_le (by simp [finalizeEntry]; norm_num)]
    simp [finalizeEntry]
    norm_num [min_def, max_def, pyRound1_forty, pyRound1_zero]

/-- Witness for C4: the two-hospital example itself, with the positive
maximum discharged concretely. -/
theorem C4_relative_reduction_witness :
    finalize_group
      [⟨some "hospital A", 100, 0, 0, medalIcon⟩,
       ⟨some "hospital B", 200, 0, 0, medalIcon⟩] =
      [⟨some "hospital A", 100, 50, 40, medalIcon⟩,
       ⟨some "hospital B", 200, 0, 0, medalIcon⟩] :=
  (C4_relative_reduction
    [⟨some "hospital A", 100, 0, 0, medalIcon⟩,
     ⟨some "hospital B", 200, 0, 0, medalIcon⟩]
    (by simp [maxKgOf, max_def]; norm_num)).2


/-- C5: a user whose summed normalized totals are non-positive is
excluded entirely from the logged-emissions leaderboards: removing that
user from the registry leaves both output lists unchanged, wherever the
user sits in the registry. -/
theorem C5_nonpositive_total_excluded (us1 us2 : List User) (u : User)
    (emissions : List EmissionRecord) (h : totalKgFor emissions u ≤ 0) :
    build_leaderboards_from_emissions (us1 ++ u :: us2) emissions =
      build_leaderboards_from_emissions (us1 ++ us2) emissions := by
  unfold build_leaderboards_from_emissions userGroups
  rw [List.foldl_append, List.foldl_append]
  simp only [List.foldl_cons]
  rw [groupStep_skip h]

/-- Witness for C5: a hospital user with no emission records (total 0)
contributes nothing to either leaderboard. -/
theorem C5_nonpositive_total_excluded_witness :
    build_leaderboards_from_emissions
      ([] ++ (⟨1, some "a@x", some "A", some "hospital"⟩ : User) :: []) [] =
      build_leaderboards_from_emissions ([] ++ []) [] :=
  C5_nonpositive_total_excluded [] [] ⟨1, some "a@x", some "A", some "hospital"⟩ []
    (by simp [totalKgFor, compute_totals_for_user, Totals.zero])

theorem finalize_group_sorted_of_pos {l : List Entry}
    (hpos : ∀ e ∈ l, 0 < e.emissions_kg) :
    (finalize_group l).Pairwise (fun a b => a.emissions_kg ≤ b.emissions_kg) := by
  by_cases hne : l = []
  · subst hne
    simp [finalize_group]
  · rw [finalize_group_of_pos (maxKgOf_pos hne hpos)]
    exact sortByEmissions_sorted _

/-- C9: all four lists returned by the two leaderboard builders are
sorted ascending by `emissions_kg`, for every input. -/
theorem C9_sorted_by_emissions (dataOpt : Option MarketData) (users : List User)
    (emissions : List EmissionRecord) :
    (build_leaderboards_from_data dataOpt).1.Pairwise
      (fun a b => a.emissions_kg ≤ b.emissions_kg) ∧
    (build_leaderboards_from_data dataOpt).2.Pairwise
      (fun a b => a.emissions_kg ≤ b.emissions_kg) ∧
    (build_leaderboards_from_emissions users emissions).1.Pairwise
      (fun a b => a.emissions_kg ≤ b.emissions_kg) ∧
    (build_leaderboards_from_emissions users emissions).2.Pairwise
      (fun a b => a.emissions_kg ≤ b.emissions_kg) := by
  refine ⟨?_, ?_, ?_, ?_⟩
  · cases dataOpt with
    | none => simp [build_leaderboards_from_data]
    | some d => exact sortByEmissions_sorted _
  · cases dataOpt with
    | none => simp [build_leaderboards_from_data]
    | some d => exact sortByEmissions_sorted _
  · show ((finalize_group (userGroups users emissions).1)).Pairwise _
    refine finalize_group_sorted_of_pos ?_
    intro e he
    obtain ⟨u, _, hpos, heq⟩ := userGroups_mem (Or.inl he)
    rw [heq]
    exact hpos
  · show ((finalize_group (userGroups users emissions).2)).Pairwise _
    refine finalize_group_sorted_of_pos ?_
    intro e he
    obtain ⟨u, _, hpos, heq⟩ := userGroups_mem (Or.inr he)
    rw [heq]
    exact hpos

theorem pyOrStr_falsy {a b : Option String} (h : a = none ∨ a = some "") :
    pyOrStr a b = b := by
  rcases h with h | h <;> simp [h, pyOrStr]

theorem pyOrStr_isSome {a b : Option String} (h : b.isSome) :
    (pyOrStr a b).isSome := by
  cases a with
  | none => simpa [pyOrStr] using h
  | some s =>
    by_cases hs : s = ""
    · simpa [pyOrStr, hs] using h
    · simp [pyOrStr, hs]

/-- C10: every entry of the logged-emissions leaderboards is named from
some user of the registry as `name or email`: the user's name when it is
present and non-empty, otherwise the user's email; in particular the
entry's name is present whenever that user's record has an email. -/
theorem C10_entry_names (users : List User) (emissions : List EmissionRecord)
    (e : Entry)
    (h : e ∈ (build_leaderboards_from_emissions users emissions).1 ∨
         e ∈ (build_leaderboards_from_emissions users emissions).2) :
    ∃ u ∈ users, e.name = pyOrStr u.name u.email ∧
      ((u.name = none ∨ u.name = some "") → e.name = u.email) ∧
      (u.email.isSome → e.name.isSome) := by
  have h' : e ∈ finalize_group (userGroups users emissions).1 ∨
      e ∈ finalize_group (userGroups users emissions).2 := h
  have hsrc : ∃ e0, (e0 ∈ (userGroups users emissions).1 ∨
      e0 ∈ (userGroups users emissions).2) ∧ e.name = e0.name := by
    rcases h' with h1 | h1
    · obtain ⟨e0, he0, hn, _⟩ := finalize_group_src h1
      exact ⟨e0, Or.inl he0, hn⟩
    · obtain ⟨e0, he0, hn, _⟩ := finalize_group_src h1
      exact ⟨e0, Or.inr he0, hn⟩
  obtain ⟨e0, he0, hn⟩ := hsrc
  obtain ⟨u, hu, _, heq⟩ := userGroups_mem he0
  have hname : e.name = pyOrStr u.name u.email := by
    rw [hn, heq]
    rfl
  refine ⟨u, hu, hname, ?_, ?_⟩
  · intro hfalsy
    rw [hname, pyOrStr_falsy hfalsy]
  · intro hsome
    rw [hname]
    exact pyOrStr_isSome hsome

/-- Witness for C10: a user with no name and email "a@x" yields an entry
named "a@x". -/
theorem C10_entry_names_witness :
    ∃ u ∈ ([⟨1, some "a@x", none, some "hospital"⟩] : List User),
      (⟨some "a@x", 5, 0, 0, medalIcon⟩ : Entry).name = pyOrStr u.name u.email ∧
      ((u.name = none ∨ u.name = some "") →
        (⟨some "a@x", 5, 0, 0, medalIcon⟩ : Entry).name = u.email) ∧
      (u.email.isSome → (⟨some "a@x", 5, 0, 0, medalIcon⟩ : Entry).name.isSome) :=
  C10_entry_names [⟨1, some "a@x", none, some "hospital"⟩]
    [⟨1, 1, some "co2", some 5, some "kg", ""⟩]
    ⟨some "a@x", 5, 0, 0, medalIcon⟩
    (Or.inl (by
      have h1 : compute_totals_for_user 1
          [⟨1, 1, some "co2", some 5, some "kg", ""⟩] = ⟨5, 0, 0⟩ := by
        simp only [compute_totals_for_user, totalsStep, Totals.zero, Totals.add,
          normalizeToKg, List.foldl, show pyLower "kg" = "kg" from rfl, Option.getD]
        simp
      have hout : (build_leaderboards_from_emissions
          [⟨1, some "a@x", none, some "hospital"⟩]
          [⟨1, 1, some "co2", some 5, some "kg", ""⟩]).1 =
          [⟨some "a@x", 5, 0, 0, medalIcon⟩] := by
        simp only [build_leaderboards_from_emissions, userGroups, groupStep,
          List.foldl, rawEntryFor, totalKgFor, pyOrStr, h1,
          show pyStrip (pyLower "hospital") = "hospital" from rfl, Option.getD]
        norm_num
        rw [finalize_group_of_pos (by simp [maxKgOf])]
        simp only [maxKgOf, List.foldl, List.map]
        rw [sortByEmissions_singleton]
        simp [finalizeEntry]
        norm_num [min_def, max_def, pyRound1_zero]
      rw [hout]
      exact List.mem_singleton.mpr rfl))

/-- C7: for every present dataset the dataset builder produces exactly
one hospital entry, named from `hospital_profile.name` with default
"Unknown Hospital", with `emissions_kg` the summed tonnes times 1000 and
`reduction_pct` the cost formula when the summed current cost is
positive and 0 otherwise; with the spec's two concrete cost examples
(1000/800 per item gives 20.0/20.0, zero cost gives 0.0/0.0). -/
theorem C7_dataset_hospital_entry (d : MarketData) :
    (build_leaderboards_from_data (some d)).1 = [hospitalEntry d] ∧
    (hospitalEntry d).name =
      some ((d.hospital_profile.bind HospitalProfile.name).getD "Unknown Hospital") ∧
    (hospitalEntry d).emissions_kg = ((iter_items d).map itemTonnes).sum * 1000 ∧
    (0 < ((iter_items d).map itemCostCur).sum →
      (hospitalEntry d).reduction_pct =
        (((iter_items d).map itemCostCur).sum -
          ((iter_items d).map itemCostAlt).sum) /
            ((iter_items d).map itemCostCur).sum * 100) ∧
    (¬ 0 < ((iter_items d).map itemCostCur).sum →
      (hospitalEntry d).reduction_pct = 0) ∧
    ((hospitalEntry ⟨none, [⟨[⟨[⟨none, some ⟨some 1000, some 800⟩, none⟩,
        ⟨none, some ⟨some 1000, some 800⟩, none⟩]⟩]⟩]⟩).reduction_pct = 20 ∧
     (hospitalEntry ⟨none, [⟨[⟨[⟨none, some ⟨some 1000, some 800⟩, none⟩,
        ⟨none, some ⟨some 1000, some 800⟩, none⟩]⟩]⟩]⟩).subsidy_pct = 20) ∧
    ((hospitalEntry ⟨none, [⟨[⟨[⟨none, some ⟨some 0, some 0⟩, none⟩]⟩]⟩]⟩).reduction_pct = 0 ∧
     (hospitalEntry ⟨none, [⟨[⟨[⟨none, some ⟨some 0, some 0⟩, none⟩]⟩]⟩]⟩).subsidy_pct = 0) := by
  refine ⟨?_, rfl, rfl, ?_, ?_, ?_, ?_⟩
  · simp only [build_leaderboards_from_data]
    rw [sortByEmissions_singleton]
  · intro h
    simp only [hospitalEntry]
    rw [if_pos h]
  · intro h
    simp only [hospitalEntry]
    rw [if_neg h]
  · constructor
    · simp only [hospitalEntry, iter_items, itemTonnes, itemCostCur, itemCostAlt,
        List.map, List.flatten, List.sum_cons, List.sum_nil, Option.bind, Option.getD]
      norm_num
    · simp only [hospitalEntry, iter_items, itemTonnes, itemCostCur, itemCostAlt,
        List.map, List.flatten, List.sum_cons, List.sum_nil, Option.bind, Option.getD]
      norm_num [min_def, max_def, pyRound1_twenty]
  · constructor
    · simp only [hospitalEntry, iter_items, itemTonnes, itemCostCur, itemCostAlt,
        List.map, List.flatten, List.sum_cons, List.sum_nil, Option.bind, Option.getD]
      norm_num
    · simp only [hospitalEntry, iter_items, itemTonnes, itemCostCur, itemCostAlt,
        List.map, List.flatten, List.sum_cons, List.sum_nil, Option.bind, Option.getD]
      norm_num [min_def, max_def, pyRound1_zero]

/-- Witness for C7: the positive-cost hypothesis discharged on the
concrete 1000/800 dataset. -/
theorem C7_dataset_hospital_entry_witness :
    (hospitalEntry ⟨none, [⟨[⟨[⟨none, some ⟨some 1000, some 800⟩, none⟩,
        ⟨none, some ⟨some 1000, some 800⟩, none⟩]⟩]⟩]⟩).reduction_pct =
      (((iter_items ⟨none, [⟨[⟨[⟨none, some ⟨some 1000, some 800⟩, none⟩,
          ⟨none, some ⟨some 1000, some 800⟩, none⟩]⟩]⟩]⟩).map itemCostCur).sum -
        ((iter_items ⟨none, [⟨[⟨[⟨none, some ⟨some 1000, some 800⟩, none⟩,
          ⟨none, some ⟨some 1000, some 800⟩, none⟩]⟩]⟩]⟩).map itemCostAlt).sum) /
          ((iter_items ⟨none, [⟨[⟨[⟨none, some ⟨some 1000, some 800⟩, none⟩,
            ⟨none, some ⟨some 1000, some 800⟩, none⟩]⟩]⟩]⟩).map itemCostCur).sum * 100 :=
  (C7_dataset_hospital_entry
    ⟨none, [⟨[⟨[⟨none, some ⟨some 1000, some 800⟩, none⟩,
      ⟨none, some ⟨some 1000, some 800⟩, none⟩]⟩]⟩]⟩).2.2.2.1
    (by
      simp only [iter_items, itemCostCur, List.map, List.flatten, List.sum_cons,
        List.sum_nil, Option.bind, Option.getD]
      norm_num)

/-- C8 counterexample: a dataset whose single item carries
`annual_co2e_tonnes = -1` makes the dataset builder emit a hospital
entry with `emissions_kg = -1000 < 0`. -/
theorem C8_nonneg_emissions_counterexample :
    ∃ e ∈ (build_leaderboards_from_data
        (some ⟨none, [⟨[⟨[⟨some ⟨some (-1)⟩, none, none⟩]⟩]⟩]⟩)).1,
      e.emissions_kg < 0 := by
  refine ⟨hospitalEntry ⟨none, [⟨[⟨[⟨some ⟨some (-1)⟩, none, none⟩]⟩]⟩]⟩, ?_, ?_⟩
  · simp only [build_leaderboards_from_data]
    rw [sortByEmissions_singleton]
    exact List.mem_singleton.mpr rfl
  · simp only [hospitalEntry, iter_items, itemTonnes, List.map, List.flatten,
      List.sum_cons, List.sum_nil, Option.bind, Option.getD]
    norm_num

theorem addToSupplier_tonnes_nonneg {ms : List (String × ManuAcc)}
    {n : String} {t c a : ℚ}
    (hms : ∀ p ∈ ms, 0 ≤ p.2.tonnes) (ht : 0 ≤ t) :
    ∀ p ∈ addToSupplier ms n t c a, 0 ≤ p.2.tonnes := by
  induction ms with
  | nil =>
    intro p hp
    simp only [addToSupplier, List.mem_singleton] at hp
    rw [hp]
    exact ht
  | cons kv rest ih =>
    obtain ⟨k, v⟩ := kv
    intro p hp
    by_cases hk : k = n
    · simp only [addToSupplier, if_pos hk] at hp
      rcases List.mem_cons.mp hp with hp | hp
      · rw [hp]
        have : 0 ≤ v.tonnes := hms (k, v) (by simp)
        simpa using add_nonneg this ht
      · exact hms p (by simp [hp])
    · simp only [addToSupplier, if_neg hk] at hp
      rcases List.mem_cons.mp hp with hp | hp
      · rw [hp]
        exact hms (k, v) (by simp)
      · exact ih (fun q hq => hms q (by simp [hq])) p hp

theorem supplierFold_tonnes_nonneg (ss : List String) (t c a : ℚ) (ht : 0 ≤ t) :
    ∀ ms : List (String × ManuAcc), (∀ p ∈ ms, 0 ≤ p.2.tonnes) →
    ∀ p ∈ ss.foldl (fun ms2 s => addToSupplier ms2 s t c a) ms, 0 ≤ p.2.tonnes := by
  induction ss with
  | nil => intro ms hms p hp; exact hms p hp
  | cons s ss ih =>
    intro ms hms p hp
    exact ih _ (addToSupplier_tonnes_nonneg hms ht) p hp

theorem manufacturerAccs_tonnes_nonneg {items : List Item}
    (hnn : ∀ it ∈ items, 0 ≤ itemTonnes it) :
    ∀ p ∈ manufacturerAccs items, 0 ≤ p.2.tonnes := by
  unfold manufacturerAccs
  suffices h : ∀ (its : List Item), (∀ it ∈ its, 0 ≤ itemTonnes it) →
      ∀ ms : List (String × ManuAcc), (∀ p ∈ ms, 0 ≤ p.2.tonnes) →
      ∀ p ∈ its.foldl (fun ms it =>
          (itemSuppliers it).foldl
            (fun ms2 s => addToSupplier ms2 s (itemTonnes it) (itemCostCur it) (itemCostAlt it))
            ms) ms, 0 ≤ p.2.tonnes by
    exact fun p hp => h items hnn [] (by simp) p hp
  intro its
  induction its with
  | nil => intro _ ms hms p hp; exact hms p hp
  | cons it its ih =>
    intro hits ms hms p hp
    refine ih (fun x hx => hits x (by simp [hx])) _ ?_ p hp
    exact supplierFold_tonnes_nonneg _ _ _ _ (hits it (by simp)) ms hms

/-- C8 (amended): every logged-emissions entry has non-negative (in
fact positive) `emissions_kg` for every registry and log; and every
dataset-builder entry has non-negative `emissions_kg` provided every
item's `annual_co2e_tonnes` is non-negative — as it is in the shipped
reference dataset, but not for arbitrary inputs. -/
theorem C8_nonneg_emissions_amended (d : MarketData) (users : List User)
    (emissions : List EmissionRecord) (e : Entry)
    (hnn : ∀ it ∈ iter_items d, 0 ≤ itemTonnes it) :
    ((e ∈ (build_leaderboards_from_data (some d)).1 ∨
      e ∈ (build_leaderboards_from_data (some d)).2) → 0 ≤ e.emissions_kg) ∧
    ((e ∈ (build_leaderboards_from_emissions users emissions).1 ∨
      e ∈ (build_leaderboards_from_emissions users emissions).2) →
        0 ≤ e.emissions_kg) := by
  constructor
  · intro h
    rcases h with h | h
    · simp only [build_leaderboards_from_data] at h
      rw [mem_sortByEmissions] at h
      rw [List.mem_singleton.mp h]
      show (0 : ℚ) ≤ ((iter_items d).map itemTonnes).sum * 1000
      have : 0 ≤ ((iter_items d).map itemTonnes).sum := by
        apply List.sum_nonneg
        intro x hx
        obtain ⟨it, hit, hxeq⟩ := List.mem_map.mp hx
        rw [← hxeq]
        exact hnn it hit
      positivity
    · simp only [build_leaderboards_from_data] at h
      rw [mem_sortByEmissions] at h
      obtain ⟨p, hp, heq⟩ := List.mem_map.mp h
      have hton : 0 ≤ p.2.tonnes := manufacturerAccs_tonnes_nonneg hnn p hp
      rw [← heq]
      show (0 : ℚ) ≤ p.2.tonnes * 1000
      positivity
  · intro h
    have h' : e ∈ finalize_group (userGroups users emissions).1 ∨
        e ∈ finalize_group (userGroups users emissions).2 := h
    have hsrc : ∃ e0, (e0 ∈ (userGroups users emissions).1 ∨
        e0 ∈ (userGroups users emissions).2) ∧ e.emissions_kg = e0.emissions_kg := by
      rcases h' with h1 | h1
      · obtain ⟨e0, he0, _, hkg⟩ := finalize_group_src h1
        exact ⟨e0, Or.inl he0, hkg⟩
      · obtain ⟨e0, he0, _, hkg⟩ := finalize_group_src h1
        exact ⟨e0, Or.inr he0, hkg⟩
    obtain ⟨e0, he0, hkg⟩ := hsrc
    obtain ⟨u, _, hpos, heq⟩ := userGroups_mem he0
    rw [hkg, heq]
    exact le_of_lt hpos

/-- Witness for C8 (amended): a one-item dataset with 2 tonnes and an
empty registry. -/
theorem C8_nonneg_emissions_amended_witness :
    0 ≤ (hospitalEntry ⟨none, [⟨[⟨[⟨some ⟨some 2⟩, none, none⟩]⟩]⟩]⟩ : Entry).emissions_kg :=
  (C8_nonneg_emissions_amended ⟨none, [⟨[⟨[⟨some ⟨some 2⟩, none, none⟩]⟩]⟩]⟩ [] []
    (hospitalEntry ⟨none, [⟨[⟨[⟨some ⟨some 2⟩, none, none⟩]⟩]⟩]⟩)
    (by
      intro it hit
      simp only [iter_items, List.flatten, List.map] at hit
      simp at hit
      rw [hit]
      simp [itemTonnes])).1
    (Or.inl (by
      simp only [build_leaderboards_from_data]
      rw [sortByEmissions_singleton]
      exact List.mem_singleton.mpr rfl))

/-- C6: the claim fails on the code. emissions.json decoding to the
well-formed JSON object `{}` (no "emissions" key) makes
`compute_totals_for_user` raise `KeyError` at `data["emissions"]` —
`load_emissions` returns the decoded value without the key check that
`load_users` performs — and a data.json that exists but fails to parse
makes `load_market_data` propagate the decode error, since it has no
try/except. -/
theorem C6_error_handling_failing_input :
    computeTotalsForUserJson 1 (load_emissions (some (.ok (.obj [])))) =
      .error "KeyError: emissions" ∧
    load_market_data (some (.error "JSONDecodeError")) =
      (.error "JSONDecodeError" : Except String (Option JVal)) :=
  ⟨rfl, rfl⟩
